import Mathlib

/-!
Shallow embedding of the upstream customer-push application
(src/upstream_integration.py, src/upstream_streamlit.py, src/upstream_ui.py).

Modelling conventions:
* Python strings are Lean `String`; `str.strip()` is `strip` below.
* A customer record is the nine-field mapping built by the UIs; since every
  surface constructs all nine keys, it is a structure of nine strings.
* The network is modelled by a `NetResult` oracle value per submission: either
  the `requests` library raises (connection error, DNS failure, timeout), or an
  HTTP response arrives with a status code, a body text, and an optional parsed
  JSON body (`none` models an unparseable body, where `response.json()` raises).
* Python exceptions are the `PyError` type; a function that can raise returns
  `Except PyError _`, where `Except.error` is an exception propagating out.
  `PyError.runtimeError` is the `RuntimeError` the code constructs for non-201
  responses; `PyError.requestsError` is an exception raised by the `requests`
  library itself (transport level); `PyError.jsonDecodeError` is the exception
  raised by `response.json()` on a malformed body.
-/

/-- Characters removed by Python `str.strip()` with no argument
(ASCII whitespace). -/
def isSpaceChar (c : Char) : Bool :=
  c = ' ' || c = '\t' || c = '\n' || c = '\r' || c = '\x0b' || c = '\x0c'

/-- Python `str.strip()`: remove leading and trailing whitespace. -/
def strip (s : String) : String :=
  ⟨((s.data.dropWhile isSpaceChar).reverse.dropWhile isSpaceChar).reverse⟩

/-- The nine-field customer record; every UI surface constructs exactly these
nine keys (`upstream_streamlit.py` lines 77-87, `upstream_ui.py` FIELDS). -/
structure Customer where
  first_name : String
  last_name : String
  road : String
  city : String
  state : String
  zip : String
  country : String
  phone : String
  dob : String
deriving Repr, DecidableEq

/-- Field-wise `str.strip()` over the record, as `upstream_streamlit.py`
lines 77-87 do when building the `customer` dict. -/
def stripCustomer (c : Customer) : Customer where
  first_name := strip c.first_name
  last_name := strip c.last_name
  road := strip c.road
  city := strip c.city
  state := strip c.state
  zip := strip c.zip
  country := strip c.country
  phone := strip c.phone
  dob := strip c.dob

/-- The items of the customer dict in Python insertion order, which is the
canonical field order of the spec. -/
def fieldsOf (c : Customer) : List (String × String) :=
  [("first_name", c.first_name), ("last_name", c.last_name), ("road", c.road),
   ("city", c.city), ("state", c.state), ("zip", c.zip),
   ("country", c.country), ("phone", c.phone), ("dob", c.dob)]

/-- The comprehension of `upstream_streamlit.py` line 88:
missing = those keys of the (already stripped) customer dict whose value is
falsy, i.e. the empty string. -/
def missingOf (c : Customer) : List String :=
  (fieldsOf (stripCustomer c)).filterMap
    (fun kv => if kv.2 = "" then some kv.1 else none)

/-- Result of the local validation step. -/
inductive ValidationResult where
  | valid (normalized : Customer)
  | invalid (missing : List String)
deriving Repr, DecidableEq

/-- The Record Validator realized by the single-record submit handler of
`upstream_streamlit.py` lines 77-90: strip every field, collect the keys of
empty fields; invalid when any field is empty, valid with the stripped record
otherwise. -/
def validate (c : Customer) : ValidationResult :=
  if missingOf c = [] then .valid (stripCustomer c) else .invalid (missingOf c)

/-- Spec-side characterization: the names of the fields that are empty after
trimming, in the canonical field order (first_name, last_name, road, city,
state, zip, country, phone, dob). -/
def emptyFieldNames (c : Customer) : List String :=
  (if strip c.first_name = "" then ["first_name"] else []) ++
  (if strip c.last_name = "" then ["last_name"] else []) ++
  (if strip c.road = "" then ["road"] else []) ++
  (if strip c.city = "" then ["city"] else []) ++
  (if strip c.state = "" then ["state"] else []) ++
  (if strip c.zip = "" then ["zip"] else []) ++
  (if strip c.country = "" then ["country"] else []) ++
  (if strip c.phone = "" then ["phone"] else []) ++
  (if strip c.dob = "" then ["dob"] else [])

/-- A record parsed from a 201 response body; `push_customer` callers access
at least `id`, `first_name`, `last_name` on it. -/
structure CreatedRecord where
  id : Nat
  first_name : String
  last_name : String
deriving Repr, DecidableEq

/-- An HTTP response as seen by the client: status code, body text, and the
result of trying to parse the body as JSON (`none` = unparseable). -/
structure HttpResponse where
  status_code : Nat
  text : String
  jsonBody : Option CreatedRecord
deriving Repr, DecidableEq

/-- What the network does for one `requests.post` call: either the requests
library raises (connection failure, DNS failure, timeout), or a response
arrives. -/
inductive NetResult where
  | exc (msg : String)
  | resp (r : HttpResponse)
deriving Repr, DecidableEq

/-- Python exceptions relevant to this program. -/
inductive PyError where
  | runtimeError (msg : String)
  | requestsError (msg : String)
  | jsonDecodeError (msg : String)
deriving Repr, DecidableEq

/-- The Submission Client of `upstream_ui.py` lines 45-58 (identical logic in
`upstream_streamlit.py` lines 42-51): if `requests.post` raises, that
exception propagates; on 201 the body is parsed (a parse failure propagates);
on any other status a `RuntimeError` with message
"HTTP status: body_text" is raised. -/
def push_customer (net : NetResult) : Except PyError CreatedRecord :=
  match net with
  | .exc m => .error (.requestsError m)
  | .resp r =>
    if r.status_code = 201 then
      match r.jsonBody with
      | some created => .ok created
      | none => .error (.jsonDecodeError r.text)
    else
      .error (.runtimeError ("HTTP " ++ toString r.status_code ++ ": " ++ r.text))

/-- The Submission Client of `upstream_integration.py` lines 27-48, which also
prints: on 201 an "[OK]" line, on other statuses a "[FAIL] HTTP status: text"
line before raising `RuntimeError("Failed to push customer: text")`.
Returns (result, printed lines). -/
def push_customer_cli (net : NetResult) :
    Except PyError CreatedRecord × List String :=
  match net with
  | .exc m => (.error (.requestsError m), [])
  | .resp r =>
    if r.status_code = 201 then
      match r.jsonBody with
      | some created =>
        (.ok created,
         ["[OK] Customer created  id=" ++ toString created.id ++
          "  name=" ++ created.first_name ++ " " ++ created.last_name])
      | none => (.error (.jsonDecodeError r.text), [])
    else
      (.error (.runtimeError ("Failed to push customer: " ++ r.text)),
       ["[FAIL] HTTP " ++ toString r.status_code ++ ": " ++ r.text])

/-- A batch entry pairs the record with what the network does for the one
`requests.post` call its submission would make. -/
abbrev BatchEntry := Customer × NetResult

/-- The Batch Runner of `upstream_integration.py` lines 51-61: push records
one by one, appending each created record; `except RuntimeError` skips the
record; any other exception is uncaught and aborts the run.  Returns the
run's result (the created-record list, or the uncaught exception) together
with the number of network calls made (one per `push_customer` invocation). -/
def push_batch : List BatchEntry → Except PyError (List CreatedRecord) × Nat
  | [] => (.ok [], 0)
  | e :: rest =>
    match (push_customer_cli e.2).1 with
    | .ok cr =>
      match push_batch rest with
      | (.ok l, n) => (.ok (cr :: l), n + 1)
      | (.error err, n) => (.error err, n + 1)
    | .error (.runtimeError _) =>
      match push_batch rest with
      | (res, n) => (res, n + 1)
    | .error err => (.error err, 1)

/-- Tags of the `log_cb` progress callback of `upstream_ui.py`. -/
inductive LogTag where
  | info
  | okTag
  | errorTag
deriving Repr, DecidableEq, BEq

/-- Observable behaviour of one `push_batch` run of `upstream_ui.py` lines
61-74: the `log_cb` invocations in order, the value of the `ok` counter after
each completed loop iteration, the `done_cb(ok, total)` invocation if the loop
finishes, and the uncaught exception if the run aborts. -/
structure UiRun where
  logs : List (String × LogTag)
  okTrace : List Nat
  done : Option (Nat × Nat)
  raised : Option PyError
deriving Repr, DecidableEq

/-- One loop iteration of `upstream_ui.py` `push_batch`, continued on the
rest of the list: `i` is the 1-based index, `ok` the running success counter,
`total` the length of the whole batch.  Logs the "Pushing" info line, calls
`push_customer`; on success logs the created line and increments `ok`; on
`RuntimeError` logs the failure line; any other exception leaves the loop
(and the background thread) with an uncaught exception, so `done_cb` is never
invoked. -/
def push_batch_ui_go (total : Nat) : Nat → Nat → List BatchEntry → UiRun
  | _, ok, [] => ⟨[], [], some (ok, total), none⟩
  | i, ok, e :: rest =>
    let infoLine : String × LogTag :=
      ("[" ++ toString i ++ "/" ++ toString total ++ "] Pushing " ++
       e.1.first_name ++ " " ++ e.1.last_name ++ " …", .info)
    match push_customer e.2 with
    | .ok cr =>
      let r := push_batch_ui_go total (i + 1) (ok + 1) rest
      ⟨infoLine ::
         ("  ✔ Created  id=" ++ toString cr.id ++ "  " ++ cr.first_name ++
          " " ++ cr.last_name, .okTag) :: r.logs,
       (ok + 1) :: r.okTrace, r.done, r.raised⟩
    | .error (.runtimeError m) =>
      let r := push_batch_ui_go total (i + 1) ok rest
      ⟨infoLine :: ("  ✘ Failed: " ++ m, .errorTag) :: r.logs,
       ok :: r.okTrace, r.done, r.raised⟩
    | .error err => ⟨[infoLine], [], none, some err⟩

/-- The Batch Runner of `upstream_ui.py` lines 61-74 (same `RuntimeError`-only
catch as the CSV loop of `upstream_streamlit.py` lines 143-155). -/
def push_batch_ui (batch : List BatchEntry) : UiRun :=
  push_batch_ui_go batch.length 1 0 batch

/-- Result of the single-record submit handler of `upstream_streamlit.py`
lines 76-101. -/
inductive SingleResult where
  | missingError (missing : List String)
  | success (cr : CreatedRecord)
  | failure (msg : String)
deriving Repr, DecidableEq

/-- The message `str(exc)` of a Python exception. -/
def pyMsg : PyError → String
  | .runtimeError m => m
  | .requestsError m => m
  | .jsonDecodeError m => m

/-- The single-record submit handler of `upstream_streamlit.py` lines 76-101:
strip the fields, report the missing ones without any network call; otherwise
call `push_customer` (one network call), catching every exception into an
error message.  Returns (result, number of network calls). -/
def submit_single (c : Customer) (net : NetResult) : SingleResult × Nat :=
  if missingOf c = [] then
    match push_customer net with
    | .ok cr => (.success cr, 1)
    | .error e => (.failure (pyMsg e), 1)
  else
    (.missingError (missingOf c), 0)

/-- Spec-side predicate: the network behaviours whose submission failure (if
any) the batch runners capture, i.e. everything except a transport-level
exception and an unparseable 201 body. -/
def capturedByBatch : NetResult → Bool
  | .exc _ => false
  | .resp r => if r.status_code = 201 then r.jsonBody.isSome else true

/-- Spec-side predicate: the network behaviours that yield a Created outcome
(HTTP 201 with a parseable body). -/
def isCreatedNet : NetResult → Bool
  | .exc _ => false
  | .resp r => r.status_code = 201 && r.jsonBody.isSome

/-- Spec-side characterization: the created records of a batch, in input
order. -/
def createdList (batch : List BatchEntry) : List CreatedRecord :=
  batch.filterMap (fun e =>
    match e.2 with
    | .exc _ => none
    | .resp r => if r.status_code = 201 then r.jsonBody else none)

/-- Spec-side count of Created outcomes in a batch. -/
def createdCount (batch : List BatchEntry) : Nat :=
  batch.countP (fun e => isCreatedNet e.2)

/-- Whether a run result is a normal return (no uncaught exception). -/
def isOkResult : Except PyError (List CreatedRecord) → Bool
  | .ok _ => true
  | .error _ => false

/-- The non-info lines of a UI run's log: exactly the per-record outcome
lines. -/
def uiOutcomeLines (r : UiRun) : List (String × LogTag) :=
  r.logs.filter (fun l => match l.2 with | LogTag.info => false | _ => true)

/-- The outcome log line `upstream_ui.py` emits for one record, given what the
network does (only meaningful when the failure is captured). -/
def expectedOutcomeLine (e : BatchEntry) : String × LogTag :=
  match push_customer e.2 with
  | .ok cr =>
    ("  ✔ Created  id=" ++ toString cr.id ++ "  " ++ cr.first_name ++
     " " ++ cr.last_name, .okTag)
  | .error err => ("  ✘ Failed: " ++ pyMsg err, .errorTag)

/-- Sample record Alice from the demo data of `upstream_integration.py`. -/
def aliceC : Customer :=
  ⟨"Alice", "Johnson", "10 Elm Street", "Boston", "MA", "02101", "USA",
   "6171234567", "03/15/1985"⟩

/-- Sample record Bob from the demo data of `upstream_integration.py`. -/
def bobC : Customer :=
  ⟨"Bob", "Williams", "55 Oak Avenue", "Chicago", "IL", "60601", "USA",
   "3129876543", "07/22/1990"⟩

/-- Sample record Charlie from the demo data of `upstream_integration.py`,
whose `road` field is empty. -/
def charlieC : Customer :=
  ⟨"Charlie", "Brown", "", "New York", "NY", "10001", "USA", "2125550001",
   "11/30/1978"⟩

/-- A parsed 201 body for Alice. -/
def aliceCreated : CreatedRecord := ⟨1, "Alice", "Johnson"⟩

/-- A network behaviour: HTTP 201 with a parseable body. -/
def okNet : NetResult := .resp ⟨201, "body", some aliceCreated⟩

/-- A network behaviour: HTTP 422 rejection with body "zip invalid". -/
def rejectNet : NetResult := .resp ⟨422, "zip invalid", none⟩

/-- A network behaviour: the requests library raises a connection error. -/
def downNet : NetResult := .exc "connection refused"

/-- A customer record with every field empty. -/
def emptyCustomerC : Customer := ⟨"", "", "", "", "", "", "", "", ""⟩

/-- Alice's record with surrounding whitespace in several fields. -/
def paddedAliceC : Customer :=
  ⟨" Alice ", "\tJohnson", " 10 Elm Street ", "Boston ", " MA", "02101",
   " USA ", "6171234567", "03/15/1985 "⟩

theorem dropWhile_eq_cons_head_false (p : Char → Bool) :
    ∀ (l : List Char) (a : Char) (t : List Char),
      List.dropWhile p l = a :: t → p a = false := by
  intro l
  induction l with
  | nil => intro a t h; simp [List.dropWhile] at h
  | cons x xs ih =>
    intro a t h
    rw [List.dropWhile_cons] at h
    by_cases hx : p x = true
    · rw [if_pos hx] at h
      exact ih a t h
    · rw [if_neg hx] at h
      injection h with h1 h2
      subst h1
      simpa using hx

theorem dropWhile_rdropWhile_dropWhile (p : Char → Bool) (l : List Char) :
    List.dropWhile p (List.rdropWhile p (List.dropWhile p l)) =
      List.rdropWhile p (List.dropWhile p l) := by
  cases hr : List.rdropWhile p (List.dropWhile p l) with
  | nil => simp
  | cons a t' =>
    have hp : p a = false := by
      obtain ⟨t, ht⟩ := List.rdropWhile_prefix p (List.dropWhile p l)
      rw [hr] at ht
      exact dropWhile_eq_cons_head_false p l a (t' ++ t) ht.symm
    rw [List.dropWhile_cons, if_neg (by simp [hp])]

theorem strip_idem (s : String) : strip (strip s) = strip s := by
  have key : ∀ l : List Char,
      List.rdropWhile isSpaceChar (List.dropWhile isSpaceChar
        (List.rdropWhile isSpaceChar (List.dropWhile isSpaceChar l))) =
      List.rdropWhile isSpaceChar (List.dropWhile isSpaceChar l) := by
    intro l
    rw [dropWhile_rdropWhile_dropWhile, List.rdropWhile_idempotent]
  exact congrArg String.mk (key s.data)

theorem stripCustomer_idem (c : Customer) :
    stripCustomer (stripCustomer c) = stripCustomer c := by
  simp [stripCustomer, strip_idem]

theorem filterMap_missing_cons (k v : String) (t : List (String × String)) :
    (((k, v) :: t).filterMap
      (fun kv => if kv.2 = "" then some kv.1 else none)) =
    (if v = "" then [k] else []) ++
      t.filterMap (fun kv => if kv.2 = "" then some kv.1 else none) := by
  by_cases h : v = "" <;> simp [h]

theorem missingOf_eq_emptyFieldNames (c : Customer) :
    missingOf c = emptyFieldNames c := by
  simp only [missingOf, fieldsOf, stripCustomer, emptyFieldNames,
    filterMap_missing_cons, List.filterMap_nil, List.append_nil,
    List.append_assoc]

theorem createdCount_cons_created (c : Customer) (text : String)
    (cr : CreatedRecord) (rest : List BatchEntry) :
    createdCount ((c, NetResult.resp ⟨201, text, some cr⟩) :: rest) =
      createdCount rest + 1 := by
  simp [createdCount, isCreatedNet, List.countP_cons]

theorem createdCount_cons_not (c : Customer) (net : NetResult)
    (h : isCreatedNet net = false) (rest : List BatchEntry) :
    createdCount ((c, net) :: rest) = createdCount rest := by
  simp [createdCount, List.countP_cons, h]

theorem push_batch_run_eq (batch : List BatchEntry)
    (h : ∀ e ∈ batch, capturedByBatch e.2 = true) :
    push_batch batch = (Except.ok (createdList batch), batch.length) := by
  induction batch with
  | nil => rfl
  | cons e rest ih =>
    have he : capturedByBatch e.2 = true := h e (by simp)
    have hrest := ih (fun x hx => h x (by simp [hx]))
    rcases e with ⟨c, net⟩
    rcases net with m | ⟨status, text, body⟩
    · simp [capturedByBatch] at he
    · by_cases h201 : status = 201
      · subst h201
        rcases body with _ | cr
        · simp [capturedByBatch] at he
        · simp [push_batch, push_customer_cli, createdList,
            List.filterMap_cons, hrest]
      · simp [push_batch, push_customer_cli, h201, createdList,
          List.filterMap_cons, hrest]

theorem push_batch_ui_go_run (total : Nat) (batch : List BatchEntry) :
    ∀ (i ok : Nat), (∀ e ∈ batch, capturedByBatch e.2 = true) →
      (push_batch_ui_go total i ok batch).done =
          some (ok + createdCount batch, total) ∧
        (push_batch_ui_go total i ok batch).raised = none ∧
        uiOutcomeLines (push_batch_ui_go total i ok batch) =
          batch.map expectedOutcomeLine ∧
        (push_batch_ui_go total i ok batch).okTrace.length = batch.length := by
  induction batch with
  | nil =>
    intro i ok _
    simp [push_batch_ui_go, uiOutcomeLines, createdCount]
  | cons e rest ih =>
    intro i ok h
    have he : capturedByBatch e.2 = true := h e (by simp)
    rcases e with ⟨c, net⟩
    rcases net with m | ⟨status, text, body⟩
    · simp [capturedByBatch] at he
    · by_cases h201 : status = 201
      · subst h201
        rcases body with _ | cr
        · simp [capturedByBatch] at he
        · have hr := ih (i + 1) (ok + 1) (fun x hx => h x (by simp [hx]))
          refine ⟨?_, ?_, ?_, ?_⟩
          · simp only [push_batch_ui_go, push_customer, if_pos rfl]
            rw [hr.1]
            simp [createdCount, List.countP_cons, isCreatedNet]
            omega
          · simp only [push_batch_ui_go, push_customer, if_pos rfl]
            exact hr.2.1
          · simp only [push_batch_ui_go, push_customer, if_pos rfl,
              uiOutcomeLines, List.filter_cons, List.map_cons,
              expectedOutcomeLine]
            simpa [uiOutcomeLines] using hr.2.2.1
          · simp [push_batch_ui_go, push_customer, hr.2.2.2]
      · have hr := ih (i + 1) ok (fun x hx => h x (by simp [hx]))
        refine ⟨?_, ?_, ?_, ?_⟩
        · simp only [push_batch_ui_go, push_customer, if_neg h201]
          rw [hr.1]
          simp [createdCount, List.countP_cons, isCreatedNet, h201]
        · simp only [push_batch_ui_go, push_customer, if_neg h201]
          exact hr.2.1
        · simp only [push_batch_ui_go, push_customer, if_neg h201,
            uiOutcomeLines, List.filter_cons, List.map_cons,
            expectedOutcomeLine, pyMsg]
          simpa [uiOutcomeLines] using hr.2.2.1
        · simp [push_batch_ui_go, push_customer, h201, hr.2.2.2]

theorem push_batch_ui_go_done (total : Nat) (batch : List BatchEntry) :
    ∀ (i ok : Nat) (p : Nat × Nat),
      (push_batch_ui_go total i ok batch).done = some p →
      p.1 = ok + createdCount batch ∧ p.2 = total := by
  induction batch with
  | nil =>
    intro i ok p hp
    simp [push_batch_ui_go] at hp
    simp [← hp, createdCount]
  | cons e rest ih =>
    intro i ok p hp
    rcases e with ⟨c, net⟩
    rcases net with m | ⟨status, text, body⟩
    · simp [push_batch_ui_go, push_customer] at hp
    · by_cases h201 : status = 201
      · subst h201
        rcases body with _ | cr
        · simp [push_batch_ui_go, push_customer] at hp
        · simp only [push_batch_ui_go, push_customer, if_pos rfl] at hp
          have := ih (i + 1) (ok + 1) p hp
          refine ⟨?_, this.2⟩
          rw [this.1, createdCount_cons_created]
          omega
      · simp only [push_batch_ui_go, push_customer, if_neg h201] at hp
        have := ih (i + 1) ok p hp
        refine ⟨?_, this.2⟩
        rw [this.1, createdCount_cons_not _ _ (by simp [isCreatedNet, h201])]

theorem ui_go_step_created (total i ok : Nat) (c : Customer) (text : String)
    (cr : CreatedRecord) (rest : List BatchEntry) :
    push_batch_ui_go total i ok
        ((c, NetResult.resp ⟨201, text, some cr⟩) :: rest) =
      ⟨("[" ++ toString i ++ "/" ++ toString total ++ "] Pushing " ++
          c.first_name ++ " " ++ c.last_name ++ " …", .info) ::
         ("  ✔ Created  id=" ++ toString cr.id ++ "  " ++ cr.first_name ++
          " " ++ cr.last_name, .okTag) ::
         (push_batch_ui_go total (i + 1) (ok + 1) rest).logs,
       (ok + 1) :: (push_batch_ui_go total (i + 1) (ok + 1) rest).okTrace,
       (push_batch_ui_go total (i + 1) (ok + 1) rest).done,
       (push_batch_ui_go total (i + 1) (ok + 1) rest).raised⟩ := rfl

theorem ui_go_step_rejected (total i ok status : Nat) (text : String)
    (body : Option CreatedRecord) (c : Customer) (rest : List BatchEntry)
    (h201 : ¬ status = 201) :
    push_batch_ui_go total i ok
        ((c, NetResult.resp ⟨status, text, body⟩) :: rest) =
      ⟨("[" ++ toString i ++ "/" ++ toString total ++ "] Pushing " ++
          c.first_name ++ " " ++ c.last_name ++ " …", .info) ::
         ("  ✘ Failed: " ++ ("HTTP " ++ toString status ++ ": " ++ text),
          .errorTag) ::
         (push_batch_ui_go total (i + 1) ok rest).logs,
       ok :: (push_batch_ui_go total (i + 1) ok rest).okTrace,
       (push_batch_ui_go total (i + 1) ok rest).done,
       (push_batch_ui_go total (i + 1) ok rest).raised⟩ := by
  simp only [push_batch_ui_go, push_customer, if_neg h201]

theorem ui_go_step_transport (total i ok : Nat) (m : String) (c : Customer)
    (rest : List BatchEntry) :
    push_batch_ui_go total i ok ((c, NetResult.exc m) :: rest) =
      ⟨[("[" ++ toString i ++ "/" ++ toString total ++ "] Pushing " ++
          c.first_name ++ " " ++ c.last_name ++ " …", .info)],
       [], none, some (.requestsError m)⟩ := rfl

theorem ui_go_step_badjson (total i ok : Nat) (text : String) (c : Customer)
    (rest : List BatchEntry) :
    push_batch_ui_go total i ok
        ((c, NetResult.resp ⟨201, text, none⟩) :: rest) =
      ⟨[("[" ++ toString i ++ "/" ++ toString total ++ "] Pushing " ++
          c.first_name ++ " " ++ c.last_name ++ " …", .info)],
       [], none, some (.jsonDecodeError text)⟩ := rfl

theorem push_batch_ui_go_trace (total : Nat) (batch : List BatchEntry) :
    ∀ (i ok j : Nat), j < (push_batch_ui_go total i ok batch).okTrace.length →
      (push_batch_ui_go total i ok batch).okTrace[j]? =
        some (ok + createdCount (batch.take (j + 1))) := by
  induction batch with
  | nil =>
    intro i ok j hj
    simp [push_batch_ui_go] at hj
  | cons e rest ih =>
    intro i ok j hj
    rcases e with ⟨c, net⟩
    rcases net with m | ⟨status, text, body⟩
    · rw [ui_go_step_transport] at hj
      simp at hj
    · by_cases h201 : status = 201
      · subst h201
        rcases body with _ | cr
        · rw [ui_go_step_badjson] at hj
          simp at hj
        · rw [ui_go_step_created] at hj ⊢
          cases j with
          | zero =>
            simp [List.take_succ_cons, createdCount, List.countP_cons,
              List.countP_nil, isCreatedNet]
          | succ j =>
            have hj2 : j <
                (push_batch_ui_go total (i + 1) (ok + 1) rest).okTrace.length := by
              simpa using hj
            simp only [List.getElem?_cons_succ, List.take_succ_cons]
            rw [ih (i + 1) (ok + 1) j hj2, createdCount_cons_created]
            exact congrArg some (by omega)
      · rw [ui_go_step_rejected total i ok status text body c rest h201] at hj ⊢
        have hnc : isCreatedNet (NetResult.resp ⟨status, text, body⟩) = false := by
          simp [isCreatedNet, h201]
        cases j with
        | zero =>
          simp [List.take_succ_cons, createdCount, List.countP_cons,
            List.countP_nil, hnc]
        | succ j =>
          have hj2 : j <
              (push_batch_ui_go total (i + 1) ok rest).okTrace.length := by
            simpa using hj
          simp only [List.getElem?_cons_succ, List.take_succ_cons]
          rw [ih (i + 1) ok j hj2, createdCount_cons_not _ _ hnc]

theorem missingOf_stripCustomer (c : Customer) :
    missingOf (stripCustomer c) = missingOf c := by
  unfold missingOf
  rw [stripCustomer_idem]

/-- C4: the claim is false on the code. On a transport-level failure
(`requests.post` raising a connection error) `push_customer` produces no
`TransportFailure` outcome — no such outcome value exists anywhere in the
code — and does not catch the exception: the requests-library exception
itself propagates to the caller (`Except.error` in this embedding is an
exception propagating out, and `PyError.requestsError` is the library's own
exception, not a classification performed by `push_customer`).  Likewise a
201 response with an unparseable body propagates the JSON decode error. -/
theorem c4_counterexample :
    push_customer downNet =
        Except.error (PyError.requestsError "connection refused") ∧
      push_customer (NetResult.resp ⟨201, "garbage", none⟩) =
        Except.error (PyError.jsonDecodeError "garbage") :=
  ⟨rfl, rfl⟩

/-- C4 amended: `push_customer` does not catch transport-level failures or
201-body parse failures; the underlying library exception (a requests
exception, resp. a JSON decode error) propagates uncaught to the caller —
a category distinct from the `RuntimeError` it raises for non-201
responses — and no `TransportFailure` outcome value is produced. -/
theorem c4_amended (m t : String) :
    push_customer (NetResult.exc m) =
        Except.error (PyError.requestsError m) ∧
      push_customer (NetResult.resp ⟨201, t, none⟩) =
        Except.error (PyError.jsonDecodeError t) :=
  ⟨rfl, rfl⟩

/-- C5: every response with a status other than 201 is turned into the
`RuntimeError` carrying the status code and the verbatim body text
("HTTP status: text" in the UI clients), the code's realization of the
`Rejected{status_code, body_text}` outcome, and never into a transport-level
category; the CLI client prints "[FAIL] HTTP status: text" and raises
`RuntimeError("Failed to push customer: text")`. -/
theorem c5_rejected_classification (status : Nat) (text : String)
    (body : Option CreatedRecord) (h : status ≠ 201) :
    push_customer (NetResult.resp ⟨status, text, body⟩) =
        Except.error (PyError.runtimeError
          ("HTTP " ++ toString status ++ ": " ++ text)) ∧
      push_customer_cli (NetResult.resp ⟨status, text, body⟩) =
        (Except.error (PyError.runtimeError
            ("Failed to push customer: " ++ text)),
         ["[FAIL] HTTP " ++ toString status ++ ": " ++ text]) := by
  constructor
  · simp [push_customer, h]
  · simp [push_customer_cli, h]

/-- C5 witness: an HTTP 422 with body "zip invalid" yields the rejection
carrying 422 and the verbatim body, exactly the spec's Scenario C. -/
theorem c5_rejected_classification_witness :
    (422 ≠ 201) ∧
      (push_customer (NetResult.resp ⟨422, "zip invalid", none⟩) =
          Except.error (PyError.runtimeError "HTTP 422: zip invalid") ∧
        push_customer_cli (NetResult.resp ⟨422, "zip invalid", none⟩) =
          (Except.error (PyError.runtimeError
              "Failed to push customer: zip invalid"),
           ["[FAIL] HTTP 422: zip invalid"])) :=
  ⟨by decide, c5_rejected_classification 422 "zip invalid" none (by decide)⟩

/-- C6: when at least one required field is empty after trimming, `validate`
returns `invalid` listing exactly the names of the empty fields in the
canonical field order, and the single-record handler performs no network
call for such a record. -/
theorem c6_invalid_lists_empty_fields (c : Customer)
    (h : emptyFieldNames c ≠ []) :
    validate c = ValidationResult.invalid (emptyFieldNames c) ∧
      ∀ net : NetResult, (submit_single c net).2 = 0 := by
  have hm : missingOf c = emptyFieldNames c := missingOf_eq_emptyFieldNames c
  constructor
  · rw [validate, hm, if_neg h]
  · intro net
    rw [submit_single, hm, if_neg h]

/-- C6 witness: a record with all nine fields missing yields `invalid`
listing all nine field names, in canonical order, with no network call. -/
theorem c6_invalid_lists_empty_fields_witness :
    (emptyFieldNames emptyCustomerC ≠ []) ∧
      (validate emptyCustomerC =
          ValidationResult.invalid (emptyFieldNames emptyCustomerC) ∧
        ∀ net : NetResult, (submit_single emptyCustomerC net).2 = 0) ∧
      emptyFieldNames emptyCustomerC =
        ["first_name", "last_name", "road", "city", "state", "zip",
         "country", "phone", "dob"] :=
  ⟨by decide, c6_invalid_lists_empty_fields emptyCustomerC (by decide),
   by decide⟩

/-- C7: when all nine fields are non-empty after trimming, `validate`
returns `valid` with the field-wise trimmed record; the normalized record is
trim-stable, i.e. carries no leading or trailing whitespace in any field. -/
theorem c7_valid_is_trimmed (c : Customer) (h : emptyFieldNames c = []) :
    validate c = ValidationResult.valid (stripCustomer c) ∧
      stripCustomer c =
        ⟨strip c.first_name, strip c.last_name, strip c.road, strip c.city,
         strip c.state, strip c.zip, strip c.country, strip c.phone,
         strip c.dob⟩ ∧
      stripCustomer (stripCustomer c) = stripCustomer c := by
  refine ⟨?_, rfl, stripCustomer_idem c⟩
  rw [validate, missingOf_eq_emptyFieldNames, if_pos h]

/-- C7 witness: Alice's record with surrounding whitespace validates to the
trimmed record, which is exactly the whitespace-free Alice record. -/
theorem c7_valid_is_trimmed_witness :
    (emptyFieldNames paddedAliceC = []) ∧
      validate paddedAliceC = ValidationResult.valid (stripCustomer paddedAliceC) ∧
      stripCustomer paddedAliceC = aliceC :=
  ⟨by decide, (c7_valid_is_trimmed paddedAliceC (by decide)).1, by decide⟩

/-- C8: `validate` is a pure function of its input in this embedding
(applying it twice to the same record trivially yields the same result, and
its value does not depend on any network oracle), and it is idempotent in
the substantive sense: validating the normalized record it returns yields
that same normalized record again. -/
theorem c8_validate_pure (c : Customer) :
    validate c = validate c ∧
      ∀ n : Customer, validate c = ValidationResult.valid n →
        validate n = ValidationResult.valid n := by
  refine ⟨rfl, ?_⟩
  intro n hn
  rw [validate] at hn
  by_cases hm : missingOf c = []
  · rw [if_pos hm] at hn
    injection hn with hn2
    subst hn2
    rw [validate, missingOf_stripCustomer, if_pos hm, stripCustomer_idem]
  · rw [if_neg hm] at hn
    exact absurd hn (by simp)

/-- C8 witness: validating the padded Alice record gives the trimmed Alice
record, and validating that output again returns it unchanged. -/
theorem c8_validate_pure_witness :
    validate paddedAliceC = ValidationResult.valid aliceC ∧
      validate aliceC = ValidationResult.valid aliceC :=
  ⟨by decide, (c8_validate_pure paddedAliceC).2 aliceC (by decide)⟩

/-- C9: on the empty batch the CLI runner returns the empty created list
having made zero network calls, and the UI runner emits zero progress
(log) events, records no counter states, reports `done_cb(0, 0)`
(total 0, createdCount 0), and raises nothing. -/
theorem c9_empty_batch :
    push_batch [] = (Except.ok [], 0) ∧
      push_batch_ui [] = ⟨[], [], some (0, 0), none⟩ :=
  ⟨rfl, rfl⟩

/-- C1: the claim is false on the code. The batch runners catch only
`RuntimeError`, so a transport failure while submitting record 1 of 2
propagates uncaught out of `push_batch` (the run's result is the exception,
not a normal return) and record 2 is never attempted: only one network call
is made for the two-record batch.  The UI runner likewise dies with the
exception, never reaching `done_cb`. -/
theorem c1_counterexample :
    push_batch [(aliceC, downNet), (bobC, okNet)] =
        (Except.error (PyError.requestsError "connection refused"), 1) ∧
      (push_batch [(aliceC, downNet), (bobC, okNet)]).2 <
        [(aliceC, downNet), (bobC, okNet)].length ∧
      (push_batch_ui [(aliceC, downNet), (bobC, okNet)]).raised =
        some (PyError.requestsError "connection refused") ∧
      (push_batch_ui [(aliceC, downNet), (bobC, okNet)]).done = none :=
  ⟨rfl, by decide, rfl, rfl⟩

/-- C1 amended: only the failures surfaced as `RuntimeError` — i.e. remote
rejections (non-201 responses) — never stop batch processing and are
captured and folded into the run's outcome; as long as no record hits a
transport-level failure (requests exception) or an unparseable 201 body,
`push_batch` returns normally having attempted every record (one network
call per record), and the UI runner aborts nothing and reaches `done_cb`.
A transport failure, by contrast, aborts the run (see the
counterexample). -/
theorem c1_captured_failures_never_abort (batch : List BatchEntry)
    (h : ∀ e ∈ batch, capturedByBatch e.2 = true) :
    isOkResult (push_batch batch).1 = true ∧
      (push_batch batch).2 = batch.length ∧
      (push_batch_ui batch).raised = none ∧
      (push_batch_ui batch).done.isSome = true := by
  have h1 := push_batch_run_eq batch h
  have h2 := push_batch_ui_go_run batch.length batch 1 0 h
  refine ⟨?_, ?_, h2.2.1, ?_⟩
  · rw [h1]
    rfl
  · rw [h1]
  · rw [push_batch_ui, h2.1]
    rfl

/-- C1 amended witness: a two-record batch whose first record is rejected
with HTTP 422 still attempts both records and returns normally. -/
theorem c1_captured_failures_never_abort_witness :
    (∀ e ∈ [(aliceC, rejectNet), (bobC, okNet)], capturedByBatch e.2 = true) ∧
      (isOkResult (push_batch [(aliceC, rejectNet), (bobC, okNet)]).1 = true ∧
        (push_batch [(aliceC, rejectNet), (bobC, okNet)]).2 =
          [(aliceC, rejectNet), (bobC, okNet)].length ∧
        (push_batch_ui [(aliceC, rejectNet), (bobC, okNet)]).raised = none ∧
        (push_batch_ui [(aliceC, rejectNet), (bobC, okNet)]).done.isSome =
          true) :=
  ⟨by decide,
   c1_captured_failures_never_abort [(aliceC, rejectNet), (bobC, okNet)]
     (by decide)⟩

/-- C2: the claim is false on the code. For a one-record batch whose record
is rejected (HTTP 422), `push_batch` returns the empty list: the returned
outcome sequence does not have length N = 1 — failed records leave no entry
in the return value. -/
theorem c2_counterexample :
    ¬ ∃ outcomes : List CreatedRecord,
        (push_batch [(aliceC, rejectNet)]).1 = Except.ok outcomes ∧
          outcomes.length = [(aliceC, rejectNet)].length := by
  rintro ⟨l, hl, hlen⟩
  rw [show (push_batch [(aliceC, rejectNet)]).1 =
        Except.ok ([] : List CreatedRecord) from rfl] at hl
  injection hl with h
  subst h
  simp at hlen

/-- C2 amended: when no record hits a transport-level failure, the batch
runners process all N records in input order; `push_batch` returns exactly
the created records, in input order (length = createdCount, not N), the UI
runner's log carries exactly one outcome line per record in input order
(a length-N outcome sequence), and `done_cb` reports
(createdCount, total = N). -/
theorem c2_tally_shape (batch : List BatchEntry)
    (h : ∀ e ∈ batch, capturedByBatch e.2 = true) :
    (push_batch batch).1 = Except.ok (createdList batch) ∧
      (push_batch_ui batch).done = some (createdCount batch, batch.length) ∧
      uiOutcomeLines (push_batch_ui batch) = batch.map expectedOutcomeLine ∧
      (uiOutcomeLines (push_batch_ui batch)).length = batch.length := by
  have h1 := push_batch_run_eq batch h
  have h2 := push_batch_ui_go_run batch.length batch 1 0 h
  rw [push_batch_ui]
  refine ⟨by rw [h1], by rw [h2.1]; simp, h2.2.2.1, ?_⟩
  rw [h2.2.2.1, List.length_map]

/-- C2 amended witness: batch of three (created, rejected, created) returns
the two created records, logs three outcome lines in order, and reports
createdCount 2 of total 3. -/
theorem c2_tally_shape_witness :
    (∀ e ∈ [(aliceC, okNet), (charlieC, rejectNet), (bobC, okNet)],
        capturedByBatch e.2 = true) ∧
      ((push_batch [(aliceC, okNet), (charlieC, rejectNet), (bobC, okNet)]).1 =
          Except.ok (createdList
            [(aliceC, okNet), (charlieC, rejectNet), (bobC, okNet)]) ∧
        (push_batch_ui
            [(aliceC, okNet), (charlieC, rejectNet), (bobC, okNet)]).done =
          some (createdCount
              [(aliceC, okNet), (charlieC, rejectNet), (bobC, okNet)],
            [(aliceC, okNet), (charlieC, rejectNet), (bobC, okNet)].length) ∧
        uiOutcomeLines (push_batch_ui
            [(aliceC, okNet), (charlieC, rejectNet), (bobC, okNet)]) =
          [(aliceC, okNet), (charlieC, rejectNet),
            (bobC, okNet)].map expectedOutcomeLine ∧
        (uiOutcomeLines (push_batch_ui
            [(aliceC, okNet), (charlieC, rejectNet), (bobC, okNet)])).length =
          [(aliceC, okNet), (charlieC, rejectNet), (bobC, okNet)].length) :=
  ⟨by decide,
   c2_tally_shape [(aliceC, okNet), (charlieC, rejectNet), (bobC, okNet)]
     (by decide)⟩

/-- C3: the claim is false on the code. The batch runners perform no local
validation at all: Charlie's record has an empty `road` (locally invalid,
as `validate` confirms), yet the batch makes a network call for it — the
rejection comes from the remote service's 422, not from a locally
synthesized outcome. -/
theorem c3_counterexample :
    validate charlieC = ValidationResult.invalid ["road"] ∧
      (push_batch [(charlieC,
          NetResult.resp ⟨422, "road required", none⟩)]).2 = 1 ∧
      (push_batch [(charlieC,
          NetResult.resp ⟨422, "road required", none⟩)]).2 ≠ 0 := by
  refine ⟨by decide, rfl, by decide⟩

/-- C3 amended: only the single-record submission paths validate before the
network: for a locally-invalid record the single-record handler reports the
missing-field list and makes no network call, whereas the batch runner
always makes a network call for the record (the remote service, not the
local validator, rejects it). -/
theorem c3_batch_skips_validation (c : Customer) (net : NetResult)
    (m : List String) (h : validate c = ValidationResult.invalid m) :
    submit_single c net = (SingleResult.missingError m, 0) ∧
      (push_batch [(c, net)]).2 = 1 := by
  rw [validate] at h
  by_cases hm : missingOf c = []
  · rw [if_pos hm] at h
    exact absurd h (by simp)
  · rw [if_neg hm] at h
    injection h with h2
    subst h2
    constructor
    · rw [submit_single, if_neg hm]
    · rcases hres : (push_customer_cli net).1 with err | cr
      · rcases err with m1 | m1 | m1 <;> simp [push_batch, hres]
      · simp [push_batch, hres]

/-- C3 amended witness: Charlie's record (empty road) is stopped without a
network call by the single-record handler, but incurs one network call in
the batch runner. -/
theorem c3_batch_skips_validation_witness :
    (validate charlieC = ValidationResult.invalid ["road"]) ∧
      (submit_single charlieC rejectNet =
          (SingleResult.missingError ["road"], 0) ∧
        (push_batch [(charlieC, rejectNet)]).2 = 1) :=
  ⟨by decide, c3_batch_skips_validation charlieC rejectNet ["road"] (by decide)⟩

/-- C10: after each completed loop iteration the `ok` counter equals the
number of records processed so far whose submission returned a created
record (hence never exceeds the number processed), and whenever the final
`done_cb(ok, total)` report happens it reports
ok = createdCount ≤ total = N. -/
theorem c10_counter_invariant (batch : List BatchEntry) (j : Nat)
    (hj : j < (push_batch_ui batch).okTrace.length) :
    (push_batch_ui batch).okTrace[j]? =
        some (createdCount (batch.take (j + 1))) ∧
      createdCount (batch.take (j + 1)) ≤ j + 1 ∧
      ∀ p : Nat × Nat, (push_batch_ui batch).done = some p →
        p.1 = createdCount batch ∧ p.1 ≤ p.2 ∧ p.2 = batch.length := by
  refine ⟨?_, ?_, ?_⟩
  · have := push_batch_ui_go_trace batch.length batch 1 0 j hj
    rw [push_batch_ui]
    simpa using this
  · calc createdCount (batch.take (j + 1)) ≤ (batch.take (j + 1)).length :=
          List.countP_le_length _
      _ ≤ j + 1 := List.length_take_le _ _
  · intro p hp
    have := push_batch_ui_go_done batch.length batch 1 0 p hp
    refine ⟨by simpa using this.1, ?_, this.2⟩
    rw [this.1, this.2]
    simpa using List.countP_le_length (fun e : BatchEntry => isCreatedNet e.2)

/-- C10 witness: in the (created, rejected, created) batch the counter reads
1, 1, 2 after the three iterations, matching the created-so-far counts, and
the final report is (2, 3). -/
theorem c10_counter_invariant_witness :
    (1 < (push_batch_ui
        [(aliceC, okNet), (charlieC, rejectNet), (bobC, okNet)]).okTrace.length) ∧
      ((push_batch_ui
          [(aliceC, okNet), (charlieC, rejectNet), (bobC, okNet)]).okTrace[1]? =
        some (createdCount ([(aliceC, okNet), (charlieC, rejectNet),
          (bobC, okNet)].take 2)) ∧
        createdCount ([(aliceC, okNet), (charlieC, rejectNet),
          (bobC, okNet)].take 2) ≤ 2 ∧
        ∀ p : Nat × Nat,
          (push_batch_ui
            [(aliceC, okNet), (charlieC, rejectNet), (bobC, okNet)]).done =
              some p →
          p.1 = createdCount
              [(aliceC, okNet), (charlieC, rejectNet), (bobC, okNet)] ∧
            p.1 ≤ p.2 ∧
            p.2 = [(aliceC, okNet), (charlieC, rejectNet),
              (bobC, okNet)].length) :=
  ⟨by decide,
   c10_counter_invariant [(aliceC, okNet), (charlieC, rejectNet), (bobC, okNet)]
     1 (by decide)⟩

/-- C4 amended witness: concrete transport failure and malformed-201-body
inputs, each propagating the library exception. -/
theorem c4_amended_witness :
    push_customer (NetResult.exc "boom") =
        Except.error (PyError.requestsError "boom") ∧
      push_customer (NetResult.resp ⟨201, "bad body", none⟩) =
        Except.error (PyError.jsonDecodeError "bad body") :=
  c4_amended "boom" "bad body"
